import Mathlib

set_option linter.unnecessarySeqFocus false

/-!
# A shallow embedding of the pinba2 coordinator core (src/coordinator.cpp)

This file models the coordinator and the per-report host of
`src/coordinator.cpp` as pure Lean functions, and proves properties of the
control-request dispatch, the batch fan-out, host startup/shutdown and the
host-side request/reply handler.

Modelling conventions:
* nanomsg sockets are modelled by the data they carry: the host's PULL side
  of its packets socket pair is a bounded FIFO `List PacketBatch` whose
  capacity is `nn_packets_buffer` (the `NN_RCVBUF` is sized as
  `sizeof(packet_batch_ptr) * nn_packets_buffer`, i.e. the capacity counts
  batch references);
* a `packet_batch_ptr` is modelled by the batch value itself (identified by
  `batchId`); handing the same value to several hosts models sharing the
  same reference;
* C++ exceptions are `Outcome.thrown msg`; reaching C++ undefined behaviour
  (integer division by zero) is `Outcome.ub`; a blocking receive whose reply
  can never arrive is modelled at the call sites that can block;
* the ticker service (`nmsg_ticker.h`, outside this file's source) is
  modelled from the spec, see `ticker_subscribe`;
* `std::unordered_map` iteration order is unspecified; the registry is an
  association list whose list order stands for the registry iteration order,
  with `emplace` inserting at the back when (and only when) the key is absent.
-/

/-- Decoded packets bundle (`packet_batch_ptr`): immutable, reference
counted. `batchId` identifies the allocation, so two hosts receiving the
same `batchId` received the same batch, not a copy. -/
structure PacketBatch where
  batchId : Nat
  packet_count : Nat
  deriving DecidableEq, Repr

/-- `report_t::info()` result: the fields `startup` reads
(`time_window`, `tick_count`). Durations are in milliseconds. -/
structure ReportInfo where
  time_window : Nat
  tick_count : Nat
  deriving DecidableEq, Repr

deriving instance DecidableEq for Except

/-- The report object, held opaquely by its host. `get_snapshot_result` is
the outcome of calling `report->get_snapshot()`: a snapshot id, or the
message of the exception the call raises. -/
structure Report where
  rname : String
  info : ReportInfo
  get_snapshot_result : Except String Nat
  deriving DecidableEq, Repr

/-- `report_host_conf_t` (source lines 24-34). -/
structure ReportHostConf where
  name : String
  thread_name : String
  nn_reqrep : String
  nn_shutdown : String
  nn_packets : String
  nn_packets_buffer : Nat
  deriving DecidableEq, Repr

/-- A live ticker channel as returned by `subscribe`. -/
structure TickChan where
  chan_name : String
  interval : Nat
  deriving DecidableEq, Repr

/-- Process-wide services the coordinator and hosts share: the set of live
ticker subscription names. -/
structure GlobalState where
  tickerSubs : List String
  deriving DecidableEq, Repr

/-- Modelled from the spec: the ticker service contract of `nmsg_ticker.h`
(not under src/). `subscribe(interval, name)` returns a channel producing
timestamps every `interval`; `name` must be unique across live
subscriptions, and subscribing an already-live name fails. -/
def ticker_subscribe (g : GlobalState) (interval : Nat) (name : String) :
    Except String (GlobalState × TickChan) :=
  if name ∈ g.tickerSubs then
    Except.error ("ticker channel name already in use: " ++ name)
  else
    Except.ok ({ g with tickerSubs := name :: g.tickerSubs },
               { chan_name := name, interval := interval })

/-- Modelled from the spec: `unsubscribe(channel)` releases the
subscription and frees the name for reuse. -/
def ticker_unsubscribe (g : GlobalState) (chan : TickChan) : GlobalState :=
  { g with tickerSubs := g.tickerSubs.filter (fun n => n ≠ chan.chan_name) }

/-- `report_host___new_thread_t` state (source lines 65-202): its
configuration, the owned report (`nullptr` before `startup`), the
`packets_received` counter, the pending contents of its packets socket pair
(bounded by `conf.nn_packets_buffer`), the ticker channel subscribed at
startup, and whether the worker thread is live. -/
structure ReportHost where
  conf : ReportHostConf
  report : Option Report
  packets_received : Nat
  inQueue : List PacketBatch
  tickerChan : Option TickChan
  threadRunning : Bool
  deriving DecidableEq, Repr

/-- The constructor `report_host___new_thread_t(globals, conf)` (source
lines 84-111): opens and binds the packets / reqrep / shutdown sockets; no
report yet, no counter, empty queue, no thread. -/
def mk_report_host (conf : ReportHostConf) : ReportHost :=
  { conf := conf
  , report := none
  , packets_received := 0
  , inQueue := []
  , tickerChan := none
  , threadRunning := false }

/-- Outcome of running a fragment of C++ code: normal return, a thrown
exception carrying its message, or undefined behaviour. -/
inductive Outcome (α : Type) where
  | ok : α → Outcome α
  | thrown : String → Outcome α
  | ub : Outcome α
  deriving DecidableEq, Repr

/-- `report_host___new_thread_t::startup(incoming_report)` (source lines
115-172): throws if already started; computes
`tick_interval = rinfo->time_window / rinfo->tick_count` — an unguarded
integer division, undefined behaviour when `tick_count = 0`; subscribes the
ticker under `conf_.name` (which throws on a live-name collision); then
spawns the worker thread. -/
def report_host_startup (g : GlobalState) (h : ReportHost) (incoming : Report) :
    Outcome (GlobalState × ReportHost) :=
  match h.report with
  | some _ =>
      Outcome.thrown ("report handler " ++ h.conf.name ++ " is already started")
  | none =>
      if incoming.info.tick_count = 0 then
        Outcome.ub
      else
        let tick_interval := incoming.info.time_window / incoming.info.tick_count
        match ticker_subscribe g tick_interval h.conf.name with
        | Except.error e => Outcome.thrown e
        | Except.ok (g2, chan) =>
            Outcome.ok (g2,
              { h with report := some incoming
                     , tickerChan := some chan
                     , threadRunning := true })

/-- `nmsg_socket_t::send_message(batch, NN_DONTWAIT)` on the host's packets
socket pair: succeeds iff the bounded receive buffer has room, never
blocks. Returns the new queue on success and `none` (EAGAIN) when full. -/
def nn_send_dontwait (queue : List PacketBatch) (cap : Nat) (b : PacketBatch) :
    Option (List PacketBatch) :=
  if queue.length < cap then some (queue ++ [b]) else none

/-- `report_host___new_thread_t::process_batch(batch)` (source lines
174-181): a non-blocking send of the batch reference; on failure the drop
branch is empty in the source (`// TODO: increment stats, etc.`), so the
batch is discarded and no field of the host changes. Always returns
normally. -/
def process_batch (h : ReportHost) (b : PacketBatch) : ReportHost :=
  match nn_send_dontwait h.inQueue h.conf.nn_packets_buffer b with
  | some q => { h with inQueue := q }
  | none => h

/-- The worker-thread reqrep handler (source lines 151-156): receive the
shipped function, run `req->func(report_.get())`, then send an empty
`report_host_result_t` acknowledgement. There is no try/catch: a raising
`func` escapes the handler (and the worker's poll loop) before any reply is
sent; `Except.error` is that escape. The callback may mutate the report and
produce a value. -/
def host_reqrep_handler {α : Type} (r : Report)
    (fn : Report → Except String (Report × α)) :
    Except String (Report × α) :=
  match fn r with
  | Except.ok (r2, a) => Except.ok (r2, a)
  | Except.error e => Except.error e

/-- `report_host___new_thread_t::call_with_report(func)` (source lines
183-190) paired with the worker loop it talks to: send the function over
the reqrep socket, then block on the acknowledgement. When the worker-side
handler dies before replying (a raising `func`), the acknowledgement never
arrives and the call blocks forever: `none`. -/
def call_with_report {α : Type} (r : Report)
    (fn : Report → Except String (Report × α)) : Option (Report × α) :=
  match host_reqrep_handler r fn with
  | Except.ok res => some res
  | Except.error _ => none

/-- `report_host___new_thread_t::shutdown()` (source lines 192-201)
together with the worker-side shutdown handler (lines 157-168): signal the
shutdown socket, the worker acknowledges, exits its loop, unsubscribes its
ticker channel (required so the name can be reused), and the caller joins
the thread. After it returns the worker thread has terminated. -/
def report_host_shutdown (g : GlobalState) (h : ReportHost) :
    GlobalState × ReportHost :=
  (match h.tickerChan with
   | some chan => ticker_unsubscribe g chan
   | none => g,
   { h with threadRunning := false, tickerChan := none })

/-- `coordinator_conf_t` fields read by `coordinator_impl_t`. -/
structure CoordConf where
  nn_input : String
  nn_control : String
  nn_report_output : String
  nn_input_buffer : Nat
  nn_report_output_buffer : Nat
  deriving DecidableEq, Repr

/-- `report_host_map_t`: `report_name -> report_host` with unique keys;
list order stands for the unordered_map iteration order. -/
abbrev Registry := List (String × ReportHost)

/-- `report_hosts_.find(name)`. -/
def registry_find (reg : Registry) (name : String) : Option ReportHost :=
  match reg with
  | [] => none
  | (k, h) :: rest => if k = name then some h else registry_find rest name

/-- `report_hosts_.emplace(name, move(rh))` (source line 366): the moved-in
`unique_ptr` is put into a freshly constructed node; when the key is absent
the node is linked in. When the key already exists the node is destroyed —
destroying the `report_host___new_thread_t` while its member `std::thread
t_` is still joinable (the worker was started by `startup` and never
joined), and `~std::thread` on a joinable thread calls `std::terminate`:
the process aborts before `emplace` returns. `none` is that abort. -/
def registry_emplace (reg : Registry) (name : String) (h : ReportHost) :
    Option Registry :=
  match registry_find reg name with
  | some _ => none
  | none => some (reg ++ [(name, h)])

/-- `report_hosts_.erase(name)`. -/
def registry_erase (reg : Registry) (name : String) : Registry :=
  reg.filter (fun p => p.1 ≠ name)

/-- `coordinator_impl_t` state visible to the worker loop: configuration,
shared services, the registry, and the poller's shutdown flag
(`set_shutdown_flag` makes `loop()` exit after the current iteration). -/
structure CoordState where
  conf : CoordConf
  global : GlobalState
  registry : Registry
  shutdownFlag : Bool
  deriving DecidableEq, Repr

/-- `COORDINATOR_STATUS__OK` / `COORDINATOR_STATUS__ERROR`. -/
inductive CoordStatus where
  | ok
  | error
  deriving DecidableEq, Repr

/-- `coordinator_response_t` variants: `coordinator_response___generic_t`
(status plus optional message) and
`coordinator_response___report_snapshot_t`. -/
inductive CoordinatorResponse where
  | generic (status : CoordStatus) (message : Option String)
  | report_snapshot (snapshot : Nat)
  deriving DecidableEq, Repr

/-- `coordinator_request_t` variants dispatched on `req->type`. The `call`
payload carries the outcome of running `r->func(this)` (the function gets
the public `coordinator_t` interface, not the worker-private registry).
`unknown ty` stands for a request whose `type` tag matches no `case` label
and falls to `default:`. -/
inductive CoordinatorRequest where
  | call (func_result : Except String Unit)
  | shutdown
  | add_report (report : Report)
  | delete_report (report_name : String)
  | get_report_snapshot (report_name : String)
  | unknown (ty : Nat)
  deriving DecidableEq, Repr

/-- Observable actions of the coordinator worker thread, in program
order. -/
inductive Event where
  | process_batch (hostName : String) (batchId : Nat)
  | host_constructed (hostName : String)
  | host_started (hostName : String)
  | host_shutdown (hostName : String)
  | reply_sent (resp : CoordinatorResponse)
  | ticker_unsubscribed (name : String)
  deriving DecidableEq, Repr

/-- The `for (auto& report_host : report_hosts_)` relay loop of the
inbound-batch handler (source lines 294-297): hand the same batch reference
to each host in turn, front to back. -/
def relay_to_all (reg : Registry) (batch : PacketBatch) :
    Registry × List Event :=
  match reg with
  | [] => ([], [])
  | (n, h) :: rest =>
      let (rest2, evs) := relay_to_all rest batch
      ((n, process_batch h batch) :: rest2,
       Event.process_batch n batch.batchId :: evs)

/-- The inbound-batch handler (source lines 288-297): receive one
`packet_batch_ptr` and relay the very same reference to every host in the
registry, in registry iteration order, via `process_batch`. Returns the
updated state and the fan-out events. -/
def handle_inbound_batch (s : CoordState) (batch : PacketBatch) :
    CoordState × List Event :=
  let (reg2, evs) := relay_to_all s.registry batch
  ({ s with registry := reg2 }, evs)

/-- The `COORDINATOR_REQ__SHUTDOWN` loop body (source lines 336-337): call
`shutdown()` on every registered host, in registry iteration order. Each
host's ticker channel is released and its worker thread is joined. -/
def shutdown_all_hosts (g : GlobalState) (reg : Registry) :
    GlobalState × Registry × List Event :=
  match reg with
  | [] => (g, [], [])
  | (n, h) :: rest =>
      let (g2, h2) := report_host_shutdown g h
      let (g3, rest2, evs) := shutdown_all_hosts g2 rest
      (g3, (n, h2) :: rest2, Event.host_shutdown n :: evs)

/-- The `report_host_conf_t` built by the `COORDINATOR_REQ__ADD_REPORT`
handler (source lines 349-361): `thread_id` is the registry size at the
time of the request, the host name is `"rh/<thread_id>/<report-name>"`, and
the three endpoint names are derived from the host name. -/
def add_report_conf (registry_size : Nat) (report_name : String)
    (output_buffer : Nat) : ReportHostConf :=
  let rh_name := "rh/" ++ toString registry_size ++ "/" ++ report_name
  { name := rh_name
  , thread_name := "rh/" ++ toString registry_size
  , nn_reqrep := "inproc://" ++ rh_name ++ "/control"
  , nn_shutdown := "inproc://" ++ rh_name ++ "/shutdown"
  , nn_packets := "inproc://" ++ rh_name ++ "/packets"
  , nn_packets_buffer := output_buffer }

/-- Result of the `switch (req->type)` body before the catch block: the
(possibly mutated) state, the events so far, and either the response the
branch sent, a thrown exception, undefined behaviour, a process abort
(`std::terminate`, which no catch block can intercept), or — for
`get_report_snapshot` on a host whose worker died before acknowledging —
a receive that blocks forever (`hung`). -/
inductive DispatchResult where
  | sent (s : CoordState) (evs : List Event) (resp : CoordinatorResponse)
  | thrown (s : CoordState) (evs : List Event) (msg : String)
  | ub
  | aborted (evs : List Event)
  | hung (s : CoordState) (evs : List Event)
  deriving DecidableEq, Repr

/-- The `COORDINATOR_REQ__ADD_REPORT` branch (source lines 345-369): build
the conf from the current registry size and the report's name, construct
the host (which binds its endpoints), `startup` it (ticker subscription,
thread spawn), `emplace` it under the report name, and reply OK. There is
no duplicate-name check and the `emplace` result is ignored: on a duplicate
key `emplace` destroys the freshly started host — whose worker thread is
joinable — so the process aborts (`registry_emplace` = `none`) and no
reply of any kind is ever sent. -/
def dispatch_add_report (s : CoordState) (report : Report) : DispatchResult :=
  let report_name := report.rname
  let rh_conf := add_report_conf s.registry.length report_name
                   s.conf.nn_report_output_buffer
  let rh := mk_report_host rh_conf
  match report_host_startup s.global rh report with
  | Outcome.ub => DispatchResult.ub
  | Outcome.thrown e =>
      DispatchResult.thrown s [Event.host_constructed rh_conf.name] e
  | Outcome.ok (g2, rh2) =>
      match registry_emplace s.registry report_name rh2 with
      | none =>
          DispatchResult.aborted
            [Event.host_constructed rh_conf.name, Event.host_started rh_conf.name]
      | some reg2 =>
          DispatchResult.sent
            { s with global := g2, registry := reg2 }
            [Event.host_constructed rh_conf.name, Event.host_started rh_conf.name]
            (CoordinatorResponse.generic CoordStatus.ok none)

/-- The `COORDINATOR_REQ__DELETE_REPORT` branch (source lines 372-391):
unknown name replies ERROR `"unknown report: <name>"` and returns;
otherwise the host is shut down synchronously, erased, and OK is sent. -/
def dispatch_delete_report (s : CoordState) (report_name : String) :
    DispatchResult :=
  match registry_find s.registry report_name with
  | none =>
      DispatchResult.sent s []
        (CoordinatorResponse.generic CoordStatus.error
          (some ("unknown report: " ++ report_name)))
  | some h =>
      let (g2, _) := report_host_shutdown s.global h
      DispatchResult.sent
        { s with global := g2
               , registry := registry_erase s.registry report_name }
        [Event.host_shutdown report_name]
        (CoordinatorResponse.generic CoordStatus.ok none)

/-- The `COORDINATOR_REQ__GET_REPORT_SNAPSHOT` branch (source lines
393-417): unknown name replies ERROR as above; otherwise
`call_with_report` ships a callback that stores `report->get_snapshot()`,
and the snapshot response is sent. A raising `get_snapshot` kills the host
worker before the acknowledgement, so the blocking receive in
`call_with_report` never returns (`hung`). A registry host that was never
started has a null `report_`; running the callback on it would dereference
null (`ub`) — unreachable, since only started hosts are emplaced. -/
def dispatch_get_report_snapshot (s : CoordState) (report_name : String) :
    DispatchResult :=
  match registry_find s.registry report_name with
  | none =>
      DispatchResult.sent s []
        (CoordinatorResponse.generic CoordStatus.error
          (some ("unknown report: " ++ report_name)))
  | some h =>
      match h.report with
      | none => DispatchResult.ub
      | some r =>
          match call_with_report r
              (fun rep => (rep.get_snapshot_result).map (fun snap => (rep, snap))) with
          | none => DispatchResult.hung s []
          | some (_, snap) =>
              DispatchResult.sent s []
                (CoordinatorResponse.report_snapshot snap)

/-- The `switch (req->type)` body of the control handler (source lines
321-422): dispatch on the request variant; the `default:` case throws
`"unknown coordinator_control_request type: <type>"`. -/
def dispatch_request (s : CoordState) (req : CoordinatorRequest) :
    DispatchResult :=
  match req with
  | CoordinatorRequest.call func_result =>
      match func_result with
      | Except.ok _ =>
          DispatchResult.sent s []
            (CoordinatorResponse.generic CoordStatus.ok none)
      | Except.error e => DispatchResult.thrown s [] e
  | CoordinatorRequest.shutdown =>
      let (g2, reg2, evs) := shutdown_all_hosts s.global s.registry
      DispatchResult.sent
        { s with global := g2, registry := reg2, shutdownFlag := true }
        evs
        (CoordinatorResponse.generic CoordStatus.ok none)
  | CoordinatorRequest.add_report report => dispatch_add_report s report
  | CoordinatorRequest.delete_report name => dispatch_delete_report s name
  | CoordinatorRequest.get_report_snapshot name =>
      dispatch_get_report_snapshot s name
  | CoordinatorRequest.unknown ty =>
      DispatchResult.thrown s []
        ("unknown coordinator_control_request type: " ++ toString ty)

/-- Final outcome of one control-request handling: a reply was sent (with
the post-state and the full event trace ending in `reply_sent`), or the
handler blocked forever, or the process aborted (`std::terminate` is not an
exception and bypasses the catch block), or undefined behaviour was
reached. -/
inductive ControlResult where
  | responded (s : CoordState) (resp : CoordinatorResponse) (evs : List Event)
  | hung (s : CoordState) (evs : List Event)
  | aborted (evs : List Event)
  | undefined
  deriving DecidableEq, Repr

/-- The whole control-socket handler (source lines 315-428): receive the
request, run the switch inside `try`, and at the single catch block turn
any `std::exception` into a generic ERROR response carrying `e.what()`;
either way the reply is the branch's last action. A process abort inside a
branch is not catchable and produces no reply. -/
def handle_control_request (s : CoordState) (req : CoordinatorRequest) :
    ControlResult :=
  match dispatch_request s req with
  | DispatchResult.sent s2 evs resp =>
      ControlResult.responded s2 resp (evs ++ [Event.reply_sent resp])
  | DispatchResult.thrown s2 evs e =>
      let resp := CoordinatorResponse.generic CoordStatus.error (some e)
      ControlResult.responded s2 resp (evs ++ [Event.reply_sent resp])
  | DispatchResult.ub => ControlResult.undefined
  | DispatchResult.aborted evs => ControlResult.aborted evs
  | DispatchResult.hung s2 evs => ControlResult.hung s2 evs

/-- One readiness event delivered to the coordinator's poller: the 1 s tick
channel, the inbound packets socket, or the control socket. -/
inductive WorkerInput where
  | tick
  | batch (b : PacketBatch)
  | control (req : CoordinatorRequest)

/-- One iteration of the coordinator poll loop (source lines 282-428): the
tick handler only drains the channel; the inbound handler fans the batch
out; the control handler dispatches and replies. `none` when the iteration
never completes (a hung blocking receive, a process abort) or hits
undefined behaviour. -/
def worker_step (s : CoordState) (i : WorkerInput) :
    Option (CoordState × List Event) :=
  match i with
  | WorkerInput.tick => some (s, [])
  | WorkerInput.batch b => some (handle_inbound_batch s b)
  | WorkerInput.control req =>
      match handle_control_request s req with
      | ControlResult.responded s2 _ evs => some (s2, evs)
      | ControlResult.hung _ _ => none
      | ControlResult.aborted _ => none
      | ControlResult.undefined => none

/-- `nmsg_poller_t::loop()` over a script of readiness events:
`set_shutdown_flag` exits the loop after the current iteration, leaving the
rest of the script undelivered. -/
def worker_steps (s : CoordState) (inputs : List WorkerInput) :
    Option (CoordState × List Event) :=
  match inputs with
  | [] => some (s, [])
  | i :: rest =>
      match worker_step s i with
      | none => none
      | some (s2, evs) =>
          if s2.shutdownFlag then some (s2, evs)
          else
            match worker_steps s2 rest with
            | none => none
            | some (s3, evs2) => some (s3, evs ++ evs2)

/-- `coordinator_impl_t::worker_thread()` (source lines 273-432): subscribe
the 1 s tick channel under `"coordinator_thread"`, run the poll loop, and
after the loop exits unsubscribe the tick channel. A failing subscribe
escapes the thread (`none`). -/
def coordinator_worker_thread (s : CoordState) (inputs : List WorkerInput) :
    Option (CoordState × List Event) :=
  match ticker_subscribe s.global 1000 "coordinator_thread" with
  | Except.error _ => none
  | Except.ok (g2, chan) =>
      match worker_steps { s with global := g2 } inputs with
      | none => none
      | some (s2, evs) =>
          some ({ s2 with global := ticker_unsubscribe s2.global chan },
                evs ++ [Event.ticker_unsubscribed "coordinator_thread"])

/-! ## Concrete values used to evaluate the model -/

/-- A well-formed report named `"r"`: a 60 s time window split into 6
ticks, whose `get_snapshot()` returns snapshot 42. -/
def report_r : Report :=
  { rname := "r"
  , info := { time_window := 60000, tick_count := 6 }
  , get_snapshot_result := Except.ok 42 }

/-- A coordinator configuration with a 16-reference per-host buffer. -/
def demo_conf : CoordConf :=
  { nn_input := "inproc://coordinator/input"
  , nn_control := "inproc://coordinator/control"
  , nn_report_output := "inproc://coordinator/report-data"
  , nn_input_buffer := 16
  , nn_report_output_buffer := 16 }

/-- A freshly started coordinator: empty registry, no live ticker names. -/
def state_empty : CoordState :=
  { conf := demo_conf
  , global := { tickerSubs := [] }
  , registry := []
  , shutdownFlag := false }

/-- The host for `"r"` exactly as a first `ADD_REPORT(report_r)` against
`state_empty` builds and starts it (registry size 0). -/
def host_r0 : ReportHost :=
  { conf := add_report_conf 0 "r" 16
  , report := some report_r
  , packets_received := 0
  , inQueue := []
  , tickerChan := some { chan_name := "rh/0/r", interval := 10000 }
  , threadRunning := true }

/-- The coordinator state after that first `ADD_REPORT(report_r)`. -/
def state_with_r : CoordState :=
  { conf := demo_conf
  , global := { tickerSubs := ["rh/0/r"] }
  , registry := [("r", host_r0)]
  , shutdownFlag := false }

/-! ## Helper lemmas -/

/-- The relay loop maps `process_batch` with the same batch over the
registry and logs one fan-out event per host, in registry order. -/
theorem relay_to_all_eq (reg : Registry) (b : PacketBatch) :
    relay_to_all reg b =
      (reg.map (fun p => (p.1, process_batch p.2 b)),
       reg.map (fun p => Event.process_batch p.1 b.batchId)) := by
  induction reg with
  | nil => rfl
  | cons p rest ih =>
      obtain ⟨n, h⟩ := p
      simp [relay_to_all, ih]

/-- `report_host_shutdown` stops the thread and drops the ticker channel,
and touches nothing else of the host. -/
theorem report_host_shutdown_host_eq (g : GlobalState) (h : ReportHost) :
    (report_host_shutdown g h).2 =
      { h with threadRunning := false, tickerChan := none } := by
  rfl

/-- The SHUTDOWN relay loop stops every host in place, keeps the key order,
and logs one shutdown event per host, in registry order. -/
theorem shutdown_all_hosts_eq (reg : Registry) (g : GlobalState) :
    ∃ g2, shutdown_all_hosts g reg =
      (g2,
       reg.map (fun p => (p.1, { p.2 with threadRunning := false, tickerChan := none })),
       reg.map (fun p => Event.host_shutdown p.1)) := by
  induction reg generalizing g with
  | nil => exact ⟨g, rfl⟩
  | cons p rest ih =>
      obtain ⟨n, h⟩ := p
      obtain ⟨g2, hg2⟩ := ih (report_host_shutdown g h).1
      refine ⟨g2, ?_⟩
      simp [shutdown_all_hosts, hg2, report_host_shutdown_host_eq]

/-! ## Claim theorems -/

/-- C1: when the coordinator's worker loop receives one `PacketBatch` on
the inbound source, it calls `process_batch(batch)` on every host currently
in the registry, in registry iteration order, passing the same batch (the
shared reference, identified by `batchId`) to each host: the new registry
applies `process_batch` with the very same batch to every host, and the
fan-out trace is one event per host, in registry order, all carrying the
one received batch. -/
theorem inbound_batch_fans_out_to_every_host (s : CoordState) (b : PacketBatch) :
    handle_inbound_batch s b =
      ({ s with registry := s.registry.map (fun p => (p.1, process_batch p.2 b)) },
       s.registry.map (fun p => Event.process_batch p.1 b.batchId)) := by
  simp [handle_inbound_batch, relay_to_all_eq]

/-- C3: a `DELETE_REPORT` or `GET_REPORT_SNAPSHOT` request naming a report
absent from the registry is answered with ERROR `"unknown report: <name>"`,
the coordinator state (registry and shutdown flag included) is unchanged,
and no shutdown flag is set, so the loop keeps serving. -/
theorem unknown_report_errors_and_preserves_state (s : CoordState) (name : String)
    (habs : registry_find s.registry name = none) :
    (handle_control_request s (CoordinatorRequest.delete_report name) =
      ControlResult.responded s
        (CoordinatorResponse.generic CoordStatus.error
          (some ("unknown report: " ++ name)))
        [Event.reply_sent (CoordinatorResponse.generic CoordStatus.error
          (some ("unknown report: " ++ name)))])
    ∧ (handle_control_request s (CoordinatorRequest.get_report_snapshot name) =
      ControlResult.responded s
        (CoordinatorResponse.generic CoordStatus.error
          (some ("unknown report: " ++ name)))
        [Event.reply_sent (CoordinatorResponse.generic CoordStatus.error
          (some ("unknown report: " ++ name)))]) := by
  constructor <;>
    simp [handle_control_request, dispatch_request, dispatch_delete_report,
          dispatch_get_report_snapshot, habs]

/-- C3 witness: deleting or snapshotting the unknown report `"nope"` on a
fresh coordinator yields the two ERROR replies and leaves the state as it
was. -/
theorem unknown_report_errors_witness :
    registry_find state_empty.registry "nope" = none
    ∧ handle_control_request state_empty (CoordinatorRequest.delete_report "nope") =
        ControlResult.responded state_empty
          (CoordinatorResponse.generic CoordStatus.error
            (some "unknown report: nope"))
          [Event.reply_sent (CoordinatorResponse.generic CoordStatus.error
            (some "unknown report: nope"))] :=
  ⟨by decide, (unknown_report_errors_and_preserves_state state_empty "nope"
      (by decide)).1⟩

/-- A host for `"r"` whose 2-reference inbound buffer is already full. -/
def host_r_full : ReportHost :=
  { conf := add_report_conf 0 "r" 2
  , report := some report_r
  , packets_received := 8
  , inQueue := [{ batchId := 1, packet_count := 3 }, { batchId := 2, packet_count := 5 }]
  , tickerChan := some { chan_name := "rh/0/r", interval := 10000 }
  , threadRunning := true }

/-- C5 counterexample: on a full queue `process_batch` returns the host
completely unchanged — every field, every counter included — so no drop
counter is incremented (the drop branch of the source is an empty
`// TODO: increment stats, etc.`). -/
theorem process_batch_full_queue_changes_nothing :
    process_batch host_r_full { batchId := 3, packet_count := 1 } = host_r_full := by
  decide

/-- C5 amended: `process_batch` is a total function (it never blocks and
never fails visibly — it returns normally whatever the enqueue outcome):
it enqueues the batch when the bounded queue has room and otherwise drops
it silently, leaving the host — all its counters included — unchanged, and
it never grows the queue beyond its capacity. -/
theorem process_batch_nonblocking_silent_drop (h : ReportHost) (b : PacketBatch) :
    process_batch h b =
      (if h.inQueue.length < h.conf.nn_packets_buffer
       then { h with inQueue := h.inQueue ++ [b] }
       else h)
    ∧ (process_batch h b).packets_received = h.packets_received
    ∧ (process_batch h b).inQueue.length
        ≤ max h.conf.nn_packets_buffer h.inQueue.length := by
  by_cases hlt : h.inQueue.length < h.conf.nn_packets_buffer <;>
    refine ⟨?_, ?_, ?_⟩ <;>
      simp [process_batch, nn_send_dontwait, hlt] <;> omega

/-- C10: host startup computes the tick interval as the unguarded integer
division `report.info.time_window / report.info.tick_count`: with
`tick_count = 0` the division is undefined behaviour (so `tick_count ≠ 0`
is a precondition of `startup`), and for every `tick_count > 0` startup is
well-defined and subscribes the ticker at exactly
`time_window / tick_count`. -/
theorem startup_tick_interval_unguarded_division (g : GlobalState)
    (h : ReportHost) (incoming : Report)
    (hfresh : h.report = none) (hname : h.conf.name ∉ g.tickerSubs) :
    (incoming.info.tick_count = 0 →
      report_host_startup g h incoming = Outcome.ub)
    ∧ (0 < incoming.info.tick_count →
      report_host_startup g h incoming =
        Outcome.ok
          ({ g with tickerSubs := h.conf.name :: g.tickerSubs },
           { h with report := some incoming
                  , tickerChan := some
                      { chan_name := h.conf.name
                      , interval := incoming.info.time_window / incoming.info.tick_count }
                  , threadRunning := true })) := by
  constructor
  · intro h0
    simp [report_host_startup, hfresh, h0]
  · intro hpos
    simp [report_host_startup, ticker_subscribe, hfresh, hname, Nat.pos_iff_ne_zero.mp hpos]

/-- C10 witness: starting a fresh host for `report_r`
(`time_window = 60000`, `tick_count = 6`) subscribes its ticker at
interval `10000 = 60000 / 6`. -/
theorem startup_tick_interval_witness :
    report_host_startup { tickerSubs := [] } (mk_report_host (add_report_conf 0 "r" 16)) report_r =
      Outcome.ok
        ({ tickerSubs := ["rh/0/r"] },
         { mk_report_host (add_report_conf 0 "r" 16) with
             report := some report_r
           , tickerChan := some { chan_name := "rh/0/r", interval := 10000 }
           , threadRunning := true }) :=
  (startup_tick_interval_unguarded_division { tickerSubs := [] }
      (mk_report_host (add_report_conf 0 "r" 16)) report_r rfl (by decide)).2 (by decide)

/-- C9: `ADD_REPORT` is atomic on failure: whenever starting the freshly
constructed host throws (e.g. a ticker subscription name collision), the
choke point answers ERROR with the exception message and the responded
state is exactly the original one — in particular no entry was inserted
into the registry. -/
theorem add_report_atomic_on_failure (s : CoordState) (report : Report) (e : String)
    (hthrow : report_host_startup s.global
        (mk_report_host
          (add_report_conf s.registry.length report.rname s.conf.nn_report_output_buffer))
        report = Outcome.thrown e) :
    handle_control_request s (CoordinatorRequest.add_report report) =
      ControlResult.responded s
        (CoordinatorResponse.generic CoordStatus.error (some e))
        [Event.host_constructed
           (add_report_conf s.registry.length report.rname
             s.conf.nn_report_output_buffer).name,
         Event.reply_sent (CoordinatorResponse.generic CoordStatus.error (some e))] := by
  simp [handle_control_request, dispatch_request, dispatch_add_report, hthrow]

/-- C9 witness: adding `report_r` while the ticker name `"rh/0/r"` is
still live makes `startup` throw; the reply is that ERROR and the state —
the empty registry included — is handed back untouched. -/
theorem add_report_atomic_on_failure_witness :
    handle_control_request
        { state_empty with global := { tickerSubs := ["rh/0/r"] } }
        (CoordinatorRequest.add_report report_r) =
      ControlResult.responded
        { state_empty with global := { tickerSubs := ["rh/0/r"] } }
        (CoordinatorResponse.generic CoordStatus.error
          (some "ticker channel name already in use: rh/0/r"))
        [Event.host_constructed "rh/0/r",
         Event.reply_sent (CoordinatorResponse.generic CoordStatus.error
          (some "ticker channel name already in use: rh/0/r"))] :=
  add_report_atomic_on_failure
    { state_empty with global := { tickerSubs := ["rh/0/r"] } } report_r
    "ticker channel name already in use: rh/0/r" (by decide)

/-- C7: every exception a control-request branch throws is caught at the
single catch block, converted into a generic ERROR response carrying the
exception message, and sent as the reply; a thrown branch never sets the
poller's shutdown flag, so the coordinator loop continues; and the
unrecognized-variant `default:` case throws (hence replies) the descriptive
message `"unknown coordinator_control_request type: <type>"`. -/
theorem handler_exception_caught_at_choke_point (s s2 : CoordState)
    (req : CoordinatorRequest) (evs : List Event) (e : String)
    (hthrow : dispatch_request s req = DispatchResult.thrown s2 evs e) :
    handle_control_request s req =
      ControlResult.responded s2
        (CoordinatorResponse.generic CoordStatus.error (some e))
        (evs ++ [Event.reply_sent
          (CoordinatorResponse.generic CoordStatus.error (some e))])
    ∧ s2.shutdownFlag = s.shutdownFlag
    ∧ (∀ ty : Nat, dispatch_request s (CoordinatorRequest.unknown ty) =
        DispatchResult.thrown s []
          ("unknown coordinator_control_request type: " ++ toString ty)) := by
  refine ⟨by simp [handle_control_request, hthrow], ?_, fun ty => rfl⟩
  cases req with
  | call func_result =>
      cases func_result <;> simp_all [dispatch_request]
  | shutdown => simp [dispatch_request] at hthrow
  | add_report report =>
      simp only [dispatch_request, dispatch_add_report] at hthrow
      rcases hstart : report_host_startup s.global
          (mk_report_host (add_report_conf s.registry.length report.rname
            s.conf.nn_report_output_buffer)) report with _ | msg | _
      · simp only [hstart] at hthrow
        split at hthrow <;> simp_all
      · simp [hstart] at hthrow
        simp_all
      · simp [hstart] at hthrow
  | delete_report name =>
      simp only [dispatch_request, dispatch_delete_report] at hthrow
      rcases hfind : registry_find s.registry name with _ | h <;>
        simp [hfind] at hthrow
  | get_report_snapshot name =>
      simp only [dispatch_request, dispatch_get_report_snapshot] at hthrow
      rcases hfind : registry_find s.registry name with _ | h
      · simp [hfind] at hthrow
      · simp only [hfind] at hthrow
        rcases hrep : h.report with _ | r
        · simp [hrep] at hthrow
        · rcases hcall : call_with_report r
              (fun rep => (rep.get_snapshot_result).map (fun snap => (rep, snap))) with _ | res <;>
            simp [hrep, hcall] at hthrow
  | unknown ty => simp_all [dispatch_request]

/-- C7 witness: a `CALL` whose shipped function throws `"boom"` is answered
with the generic ERROR response carrying `"boom"`, and the loop goes on
(flag still clear). -/
theorem handler_exception_choke_point_witness :
    handle_control_request state_empty
        (CoordinatorRequest.call (Except.error "boom")) =
      ControlResult.responded state_empty
        (CoordinatorResponse.generic CoordStatus.error (some "boom"))
        [Event.reply_sent
          (CoordinatorResponse.generic CoordStatus.error (some "boom"))] :=
  (handler_exception_caught_at_choke_point state_empty state_empty
    (CoordinatorRequest.call (Except.error "boom")) [] "boom" (by decide)).1

/-- C4: handling a SHUTDOWN request, the coordinator calls
`host.shutdown()` synchronously on every registered host — every
`host_shutdown` event precedes the OK reply in the trace, and in the final
state every previously registered host (the key set is unchanged) has its
worker thread terminated — then sets the loop-exit flag, replies OK, and
after the reply the worker loop processes nothing more and unsubscribes its
tick channel as its final action. -/
theorem shutdown_joins_every_host_before_reply (s : CoordState)
    (rest : List WorkerInput)
    (hsub : "coordinator_thread" ∉ s.global.tickerSubs) :
    ∃ s2 : CoordState,
      coordinator_worker_thread s
          (WorkerInput.control CoordinatorRequest.shutdown :: rest) =
        some (s2,
          (s.registry.map fun p => Event.host_shutdown p.1)
          ++ [Event.reply_sent (CoordinatorResponse.generic CoordStatus.ok none),
              Event.ticker_unsubscribed "coordinator_thread"])
      ∧ s2.shutdownFlag = true
      ∧ s2.registry.map Prod.fst = s.registry.map Prod.fst
      ∧ ∀ p ∈ s2.registry, p.2.threadRunning = false := by
  obtain ⟨g3, hsd⟩ := shutdown_all_hosts_eq s.registry
    { s.global with tickerSubs := "coordinator_thread" :: s.global.tickerSubs }
  refine ⟨{ s with
      global := ticker_unsubscribe g3
        { chan_name := "coordinator_thread", interval := 1000 }
    , registry := s.registry.map
        (fun p => (p.1, { p.2 with threadRunning := false, tickerChan := none }))
    , shutdownFlag := true }, ?_, rfl, ?_, ?_⟩
  · simp [coordinator_worker_thread, ticker_subscribe, hsub, worker_steps,
          worker_step, handle_control_request, dispatch_request, hsd]
  · simp
  · intro p hp
    simp only [List.mem_map] at hp
    obtain ⟨q, _, rfl⟩ := hp
    rfl

/-- C4 witness: shutting down a coordinator owning the single live host for
`"r"` stops that host's thread before the OK reply, then unsubscribes the
coordinator tick channel. -/
theorem shutdown_joins_every_host_witness :
    "coordinator_thread" ∉ state_with_r.global.tickerSubs
    ∧ ∃ s2 : CoordState,
      coordinator_worker_thread state_with_r
          [WorkerInput.control CoordinatorRequest.shutdown] =
        some (s2,
          [Event.host_shutdown "r",
           Event.reply_sent (CoordinatorResponse.generic CoordStatus.ok none),
           Event.ticker_unsubscribed "coordinator_thread"])
      ∧ s2.shutdownFlag = true
      ∧ s2.registry.map Prod.fst = ["r"]
      ∧ ∀ p ∈ s2.registry, p.2.threadRunning = false :=
  ⟨by decide, shutdown_joins_every_host_before_reply state_with_r [] (by decide)⟩

/-- C2 evaluation at the failing input: with the host for `"r"` already
registered, a second `ADD_REPORT` for a report named `"r"` never produces
the claimed ERROR: there is no duplicate check, so a second host
(`"rh/1/r"`) is constructed AND started, and the duplicate-keyed `emplace`
then destroys that just-started host while its worker thread is joinable,
aborting the whole process (`std::terminate`) before any reply — neither
ERROR nor OK — can be sent. -/
theorem duplicate_add_report_aborts_the_process :
    handle_control_request state_with_r (CoordinatorRequest.add_report report_r) =
      ControlResult.aborted
        [Event.host_constructed "rh/1/r", Event.host_started "rh/1/r"] := by
  decide

/-- A report named `"q"` whose `get_snapshot()` throws
`"snapshot failed"`. -/
def report_bad : Report :=
  { rname := "q"
  , info := { time_window := 60000, tick_count := 6 }
  , get_snapshot_result := Except.error "snapshot failed" }

/-- The started host for `report_bad` (registry size 0). -/
def host_q0 : ReportHost :=
  { conf := add_report_conf 0 "q" 16
  , report := some report_bad
  , packets_received := 0
  , inQueue := []
  , tickerChan := some { chan_name := "rh/0/q", interval := 10000 }
  , threadRunning := true }

/-- The coordinator state after `ADD_REPORT(report_bad)`. -/
def state_with_q : CoordState :=
  { conf := demo_conf
  , global := { tickerSubs := ["rh/0/q"] }
  , registry := [("q", host_q0)]
  , shutdownFlag := false }

/-- C6 evaluation at the failing input: the snapshot callback raising
inside the host worker escapes the reqrep handler uncaught — no
acknowledgement is ever sent — so the host worker loop dies and the
coordinator's `GET_REPORT_SNAPSHOT` handler blocks forever on the reply:
the client gets no ERROR response at all. -/
theorem raising_snapshot_callback_hangs_client :
    host_reqrep_handler report_bad
        (fun rep => (rep.get_snapshot_result).map (fun snap => (rep, snap))) =
      (Except.error "snapshot failed" : Except String (Report × Nat))
    ∧ handle_control_request state_with_q
        (CoordinatorRequest.get_report_snapshot "q") =
      ControlResult.hung state_with_q [] := by
  exact ⟨rfl, by decide⟩

/-- A report named `"a"`, same shape as `report_r`. -/
def report_a : Report :=
  { rname := "a"
  , info := { time_window := 60000, tick_count := 6 }
  , get_snapshot_result := Except.ok 7 }

/-- A report named `"b"`, same shape as `report_r`. -/
def report_b : Report :=
  { rname := "b"
  , info := { time_window := 60000, tick_count := 6 }
  , get_snapshot_result := Except.ok 8 }

/-- The started host for `report_b`, created at registry size 0. -/
def host_b0 : ReportHost :=
  { conf := add_report_conf 0 "b" 16
  , report := some report_b
  , packets_received := 0
  , inQueue := []
  , tickerChan := some { chan_name := "rh/0/b", interval := 10000 }
  , threadRunning := true }

/-- C8 counterexample: the claimed index is neither monotonically
increasing nor never-reused: it is the current registry size. Running
`ADD_REPORT(a)`, `DELETE_REPORT(a)`, `ADD_REPORT(b)` from an empty
coordinator constructs the first host as `"rh/0/a"` and — after the delete
shrank the registry — the second as `"rh/0/b"`: index 0 is used by two
different `ADD_REPORT`s over the coordinator's lifetime. -/
theorem host_index_reused_after_delete :
    worker_steps state_empty
        [WorkerInput.control (CoordinatorRequest.add_report report_a),
         WorkerInput.control (CoordinatorRequest.delete_report "a"),
         WorkerInput.control (CoordinatorRequest.add_report report_b)] =
      some
        ({ conf := demo_conf
         , global := { tickerSubs := ["rh/0/b"] }
         , registry := [("b", host_b0)]
         , shutdownFlag := false },
         [Event.host_constructed "rh/0/a", Event.host_started "rh/0/a",
          Event.reply_sent (CoordinatorResponse.generic CoordStatus.ok none),
          Event.host_shutdown "a",
          Event.reply_sent (CoordinatorResponse.generic CoordStatus.ok none),
          Event.host_constructed "rh/0/b", Event.host_started "rh/0/b",
          Event.reply_sent (CoordinatorResponse.generic CoordStatus.ok none)]) := by
  decide

/-- C8 amended: the host name built by each `ADD_REPORT` is
`"rh/<i>/<report-name>"` where `i` is the registry size at the time of the
request (so `i` can be reused after a `DELETE_REPORT` shrinks the
registry); the host's endpoint names are derived deterministically from
that host name; for a report with nonzero `tick_count` the request
constructs a host under exactly that name (started and registered on
success, ERROR on a startup throw, process abort on a duplicate report
name); and uniqueness of host names within the process is preserved among
live hosts: when every registered host name is pairwise distinct and backed
by a live ticker subscription, any `ADD_REPORT` that reaches its OK reply
keeps the registered host names pairwise distinct, because a colliding name
fails the ticker subscription inside `startup` and is never registered. -/
theorem add_report_names_derived_from_registry_size (s : CoordState)
    (report : Report) (htc : report.info.tick_count ≠ 0)
    (hnodup : (s.registry.map (fun p => p.2.conf.name)).Nodup)
    (hlive : ∀ p ∈ s.registry, p.2.conf.name ∈ s.global.tickerSubs) :
    let rh_conf := add_report_conf s.registry.length report.rname
                     s.conf.nn_report_output_buffer
    rh_conf.name = "rh/" ++ toString s.registry.length ++ "/" ++ report.rname
    ∧ rh_conf.thread_name = "rh/" ++ toString s.registry.length
    ∧ rh_conf.nn_reqrep = "inproc://" ++ rh_conf.name ++ "/control"
    ∧ rh_conf.nn_shutdown = "inproc://" ++ rh_conf.name ++ "/shutdown"
    ∧ rh_conf.nn_packets = "inproc://" ++ rh_conf.name ++ "/packets"
    ∧ ((∃ e, dispatch_add_report s report =
          DispatchResult.thrown s [Event.host_constructed rh_conf.name] e)
       ∨ dispatch_add_report s report =
          DispatchResult.aborted
            [Event.host_constructed rh_conf.name, Event.host_started rh_conf.name]
       ∨ (∃ s2, dispatch_add_report s report =
          DispatchResult.sent s2
            [Event.host_constructed rh_conf.name, Event.host_started rh_conf.name]
            (CoordinatorResponse.generic CoordStatus.ok none)))
    ∧ (∀ s2 evs resp, dispatch_add_report s report = DispatchResult.sent s2 evs resp →
        (s2.registry.map (fun p => p.2.conf.name)).Nodup) := by
  refine ⟨rfl, rfl, rfl, rfl, rfl, ?_, ?_⟩
  · rcases hstart : report_host_startup s.global
        (mk_report_host (add_report_conf s.registry.length report.rname
          s.conf.nn_report_output_buffer)) report with ⟨g2, rh2⟩ | e | _
    · rcases hemp : registry_emplace s.registry report.rname rh2 with _ | reg2
      · refine Or.inr (Or.inl ?_)
        simp [dispatch_add_report, hstart, hemp]
      · refine Or.inr (Or.inr ⟨{ s with global := g2, registry := reg2 }, ?_⟩)
        simp [dispatch_add_report, hstart, hemp]
    · exact Or.inl ⟨e, by simp [dispatch_add_report, hstart]⟩
    · exfalso
      simp only [report_host_startup, mk_report_host, htc, if_false] at hstart
      split at hstart <;> simp_all
  · intro s2 evs resp hsent
    simp only [dispatch_add_report] at hsent
    rcases hstart : report_host_startup s.global
        (mk_report_host (add_report_conf s.registry.length report.rname
          s.conf.nn_report_output_buffer)) report with ⟨g2, rh2⟩ | e | _ <;>
      simp only [hstart] at hsent
    · rcases hemp : registry_emplace s.registry report.rname rh2 with _ | reg2 <;>
        simp only [hemp] at hsent
      · exact absurd hsent (by simp)
      · cases hsent
        have hreg2 : reg2 = s.registry ++ [(report.rname, rh2)] := by
          simp only [registry_emplace] at hemp
          rcases hfind : registry_find s.registry report.rname with _ | h0 <;>
            simp [hfind] at hemp
          exact hemp.symm
        have hmem : rh2.conf.name ∉ s.global.tickerSubs ∧
            rh2.conf = add_report_conf s.registry.length report.rname
              s.conf.nn_report_output_buffer := by
          simp only [report_host_startup, mk_report_host, htc, if_false] at hstart
          rcases hsub : ticker_subscribe s.global
              (report.info.time_window / report.info.tick_count)
              (add_report_conf s.registry.length report.rname
                s.conf.nn_report_output_buffer).name with e' | ⟨g2', chan⟩ <;>
            simp only [hsub] at hstart
          · exact absurd hstart (by simp)
          · simp only [ticker_subscribe] at hsub
            split at hsub
            · exact absurd hsub (by simp)
            · cases hstart
              simp_all
        simp only [hreg2, List.map_append, List.map_cons, List.map_nil]
        refine List.Nodup.append hnodup (List.nodup_singleton _) ?_
        intro x hx hx2
        simp only [List.mem_singleton] at hx2
        subst hx2
        simp only [List.mem_map] at hx
        obtain ⟨p, hp, hpx⟩ := hx
        exact hmem.1 (hpx ▸ hlive p hp)
    · exact absurd hsent (by simp)
    · exact absurd hsent (by simp)

/-- C8 amended, witnessed at `state_empty` and `report_r`: the derived
names are `"rh/0/r"` and its three `inproc://rh/0/r/...` endpoints, the add
constructs the host under that name, and the one-host registry it builds
has (trivially distinct) pairwise-distinct host names. -/
theorem add_report_names_witness :
    let rh_conf := add_report_conf state_empty.registry.length report_r.rname
                     state_empty.conf.nn_report_output_buffer
    rh_conf.name = "rh/" ++ toString state_empty.registry.length ++ "/" ++ report_r.rname
    ∧ rh_conf.thread_name = "rh/" ++ toString state_empty.registry.length
    ∧ rh_conf.nn_reqrep = "inproc://" ++ rh_conf.name ++ "/control"
    ∧ rh_conf.nn_shutdown = "inproc://" ++ rh_conf.name ++ "/shutdown"
    ∧ rh_conf.nn_packets = "inproc://" ++ rh_conf.name ++ "/packets"
    ∧ ((∃ e, dispatch_add_report state_empty report_r =
          DispatchResult.thrown state_empty [Event.host_constructed rh_conf.name] e)
       ∨ dispatch_add_report state_empty report_r =
          DispatchResult.aborted
            [Event.host_constructed rh_conf.name, Event.host_started rh_conf.name]
       ∨ (∃ s2, dispatch_add_report state_empty report_r =
          DispatchResult.sent s2
            [Event.host_constructed rh_conf.name, Event.host_started rh_conf.name]
            (CoordinatorResponse.generic CoordStatus.ok none)))
    ∧ (∀ s2 evs resp,
        dispatch_add_report state_empty report_r = DispatchResult.sent s2 evs resp →
        (s2.registry.map (fun p => p.2.conf.name)).Nodup) :=
  add_report_names_derived_from_registry_size state_empty report_r
    (by decide) (by decide) (by decide)
